import Mathlib

/-!
Verification of `eval_ch.py`, the Chainer evaluation script of imgclsmob.

The script is orchestration glue: it parses CLI arguments, sets an
environment variable, initializes logging, checks assertions, loads a model,
selects a data source, and runs `test`, which computes top-1/top-5 error and
logs them.  We embed the control flow of `main` as a function producing the
trace of external calls performed together with the assertion (if any) that
fired, and `test` as a function from the collected prediction/label arrays to
the list of log messages it emits.
-/

set_option autoImplicit false

namespace EvalCh

/-- Characters removed by Python `str.strip()` (ASCII whitespace). -/
def isPySpace (c : Char) : Bool :=
  c = ' ' || c = '\t' || c = '\n' || c = '\r' || c = '\x0b' || c = '\x0c'

/-- Python `s.strip()`: remove leading and trailing whitespace. -/
def pyStrip (s : String) : String :=
  String.mk (((s.data.dropWhile isPySpace).reverse.dropWhile isPySpace).reverse)

/-- The CLI-derived settings of `eval_ch.py` used by `main`
(fields irrelevant to the verified control flow are omitted). -/
structure Args where
  model : String
  use_pretrained : Bool
  resume : String
  data_subset : String
  num_gpus : Int
  batch_size : Int
  disable_cudnn_autotune : Bool
  deriving DecidableEq

/-- External calls `main` performs, in program order. -/
inductive Event where
  | setEnv (name value : String)
  | initLogging
  | prepareModel (modelName : String) (usePretrained : Bool) (path : String)
  | getValDataSource (batchSize : Int)
  | getTestDataSource (batchSize : Int)
  | testCall (calcWeightCount extendedLog : Bool)
  deriving DecidableEq

/-- The three `assert` statements of `main`, in source order. -/
inductive AssertId where
  | segBatchSize
  | segAutotune
  | pretrainedOrResume
  deriving DecidableEq

/-- Trace of `main` up to and including logging initialization
(lines 178-186): the optional environment-variable write, then logging. -/
def tr0 (args : Args) : List Event :=
  (if args.disable_cudnn_autotune then
     [Event.setEnv "MXNET_CUDNN_AUTOTUNE_DEFAULT" "0"] else [])
  ++ [Event.initLogging]

/-- Trace of `main` up to and including the data-source selection
(lines 196-220): model loading, then the `val`/`test` branch. -/
def trData (args : Args) : List Event :=
  tr0 args
  ++ [Event.prepareModel args.model args.use_pretrained (pyStrip args.resume)]
  ++ [if args.data_subset = "val" then Event.getValDataSource args.batch_size
      else Event.getTestDataSource args.batch_size]

/-- Control flow of `main` (eval_ch.py lines 175-228): returns the trace of
external calls performed before termination and the assertion that fired, if
any.  `ml_type` stands for `ds_metainfo.ml_type` of the resolved dataset. -/
def mainModel (args : Args) (ml_type : String) : List Event × Option AssertId :=
  if ¬ (ml_type ≠ "imgseg" ∨ args.batch_size = 1) then
    (tr0 args, some AssertId.segBatchSize)
  else if ¬ (ml_type ≠ "imgseg" ∨ args.disable_cudnn_autotune = true) then
    (tr0 args, some AssertId.segAutotune)
  else if ¬ (args.use_pretrained = true ∨ pyStrip args.resume ≠ "") then
    (trData args, some AssertId.pretrainedOrResume)
  else
    (trData args ++ [Event.testCall true true], none)

/-- Index-and-value accumulator pass of `argmax` over the remaining scores:
keeps the earliest index attaining the maximum, as numpy/cupy `argmax` does. -/
def argmaxP : List ℚ → ℕ → ℕ × ℚ → ℕ × ℚ
  | [], _, acc => acc
  | x :: xs, i, (bi, bv) =>
      if bv < x then argmaxP xs (i + 1) (i, x) else argmaxP xs (i + 1) (bi, bv)

/-- `argmax` of one row of prediction scores: index of the first maximal
entry (numpy/cupy semantics used by `chainer.functions.accuracy`). -/
def argmax (row : List ℚ) : ℕ :=
  match row with
  | [] => 0
  | x :: xs => (argmaxP xs 1 (0, x)).1

/-- `chainer.functions.accuracy(y, t)`: fraction of rows whose `argmax`
equals the ground-truth label. -/
def accuracy (y : List (List ℚ)) (t : List ℕ) : ℚ :=
  (((y.zip t).countP fun p => decide (argmax p.1 = p.2)) : ℚ) / (y.length : ℚ)

/-- Modelled from the spec: the repository function `top_k_accuracy`
(`chainer_/top_k_accuracy.py`) is imported by `eval_ch.py` but its source is
not part of this fragment.  Following the spec, a sample counts as correct iff
its true label is among the `k` highest-scoring classes; here: the label is a
valid index and fewer than `k` classes score strictly above it. -/
def inTopK (k : ℕ) (row : List ℚ) (lab : ℕ) : Bool :=
  decide (lab < row.length) &&
    decide ((row.countP fun s => decide (row.getD lab 0 < s)) < k)

/-- Modelled from the spec: `top_k_accuracy(y, t, k)` is the fraction of
samples whose true label is among the `k` highest-scoring classes. -/
def top_k_accuracy (y : List (List ℚ)) (t : List ℕ) (k : ℕ) : ℚ :=
  (((y.zip t).countP fun p => inTopK k p.1 p.2) : ℚ) / (y.length : ℚ)

/-- `err_top1_val` of `test` (line 162). -/
def err_top1_val (y : List (List ℚ)) (t : List ℕ) : ℚ := 1 - accuracy y t

/-- `err_top5_val` of `test` (line 163). -/
def err_top5_val (y : List (List ℚ)) (t : List ℕ) : ℚ := 1 - top_k_accuracy y t 5

/-- Python `"{:.4f}".format`: the value rounded to 4 decimal places. -/
def fmt4 (x : ℚ) : ℚ := ((round (x * 10000) : ℤ) : ℚ) / 10000

/-- Log messages `test` can emit.  `errExtended` carries the two error values
rounded to 4 decimals and, repeated, at full precision (the extended format
string); `errPlain` carries only the rounded values; `timeCost` the rounded
elapsed time. -/
inductive LogMsg where
  | weightCount (n : ℕ)
  | errExtended (top1R top1 top5R top5 : ℚ)
  | errPlain (top1R top5R : ℚ)
  | timeCost (tR : ℚ)
  deriving DecidableEq

/-- The `test` function (lines 128-172), as the list of log messages it emits
given the concatenated prediction rows `y`, labels `t`, the model's parameter
count and the elapsed wall-clock time. -/
def test (y : List (List ℚ)) (t : List ℕ) (weight_count : ℕ) (elapsed : ℚ)
    (calc_weight_count extended_log : Bool) : List LogMsg :=
  (if calc_weight_count then [LogMsg.weightCount weight_count] else [])
  ++ [if extended_log then
        LogMsg.errExtended (fmt4 (err_top1_val y t)) (err_top1_val y t)
          (fmt4 (err_top5_val y t)) (err_top5_val y t)
      else
        LogMsg.errPlain (fmt4 (err_top1_val y t)) (fmt4 (err_top5_val y t))]
  ++ [LogMsg.timeCost (fmt4 elapsed)]

/-- Point update of an environment map (`os.environ[k] = v`). -/
def setVar (env : String → Option String) (k v : String) :
    String → Option String :=
  fun x => if x = k then some v else env x

/-- Lines 178-179 of `main`: the effect on the process environment. -/
def autotuneStep (disable : Bool) (env : String → Option String) :
    String → Option String :=
  if disable then setVar env "MXNET_CUDNN_AUTOTUNE_DEFAULT" "0" else env

/-- Replace the `resume` field of an argument record. -/
def setResume (a : Args) (r : String) : Args :=
  Args.mk a.model a.use_pretrained r a.data_subset a.num_gpus a.batch_size
    a.disable_cudnn_autotune

/-- A configuration supplying both `--use-pretrained` and a checkpoint path. -/
def argsBoth : Args := ⟨"resnet18", true, "model.npz", "val", 0, 512, false⟩

/-- A configuration supplying neither `--use-pretrained` nor a checkpoint
path (the resume string is whitespace only). -/
def argsNeither : Args := ⟨"resnet18", false, "   ", "val", 0, 512, false⟩

/-- A segmentation run violating the batch-size-1 precondition. -/
def argsSeg : Args := ⟨"pspnet", false, "model.npz", "test", 0, 512, false⟩

/-- A well-formed classification run. -/
def argsOk : Args := ⟨"resnet18", true, "", "val", 0, 512, true⟩

/-- Scores where class 2 is ranked first (of 10 classes). -/
def rowTop1 : List ℚ := [0, 1, 9, 2, 3, 4, 5, 0, 0, 0]

/-- Scores where class 2 is ranked second (still within the top 5). -/
def rowTop5 : List ℚ := [9, 1, 8, 2, 3, 4, 5, 0, 0, 0]

/-- The spec's end-to-end scenario: 4 samples, class 2 always correct,
top-1 correct for exactly 2 of the 4. -/
def yEx : List (List ℚ) := [rowTop1, rowTop1, rowTop5, rowTop5]

/-- Ground-truth labels of the end-to-end scenario. -/
def tEx : List ℕ := [2, 2, 2, 2]

end EvalCh

namespace EvalCh

/-! ### Properties of `argmax` -/

theorem argmaxP_acc_le (xs : List ℚ) :
    ∀ (i : ℕ) (acc : ℕ × ℚ), acc.2 ≤ (argmaxP xs i acc).2 := by
  induction xs with
  | nil => intro i acc; simp [argmaxP]
  | cons x xs ih =>
    intro i acc
    obtain ⟨bi, bv⟩ := acc
    by_cases h : bv < x
    · simp only [argmaxP, if_pos h]
      exact le_trans (le_of_lt h) (ih (i + 1) (i, x))
    · simp only [argmaxP, if_neg h]
      exact ih (i + 1) (bi, bv)

theorem argmaxP_mem_le (xs : List ℚ) :
    ∀ (i : ℕ) (acc : ℕ × ℚ) (v : ℚ), v ∈ xs → v ≤ (argmaxP xs i acc).2 := by
  induction xs with
  | nil => intro i acc v hv; simp at hv
  | cons x xs ih =>
    intro i acc v hv
    obtain ⟨bi, bv⟩ := acc
    rcases List.mem_cons.mp hv with h1 | h1
    · subst h1
      by_cases h : bv < v
      · simp only [argmaxP, if_pos h]
        exact argmaxP_acc_le xs (i + 1) (i, v)
      · simp only [argmaxP, if_neg h]
        exact le_trans (le_of_not_lt h) (argmaxP_acc_le xs (i + 1) (bi, bv))
    · by_cases h : bv < x
      · simp only [argmaxP, if_pos h]
        exact ih (i + 1) (i, x) v h1
      · simp only [argmaxP, if_neg h]
        exact ih (i + 1) (bi, bv) v h1

theorem argmaxP_index (xs : List ℚ) :
    ∀ (i : ℕ) (acc : ℕ × ℚ),
      argmaxP xs i acc = acc ∨
        ∃ j, j < xs.length ∧ (argmaxP xs i acc).1 = i + j ∧
          (argmaxP xs i acc).2 = xs.getD j 0 := by
  induction xs with
  | nil => intro i acc; left; rfl
  | cons x xs ih =>
    intro i acc
    obtain ⟨bi, bv⟩ := acc
    by_cases h : bv < x
    · simp only [argmaxP, if_pos h]
      rcases ih (i + 1) (i, x) with heq | ⟨j, hj, h1, h2⟩
      · right
        exact ⟨0, by simp, by simp [heq], by simp [heq]⟩
      · right
        refine ⟨j + 1, by simpa using Nat.succ_lt_succ hj, ?_, ?_⟩
        · rw [h1]; omega
        · rw [h2]; simp [List.getD_cons_succ]
    · simp only [argmaxP, if_neg h]
      rcases ih (i + 1) (bi, bv) with heq | ⟨j, hj, h1, h2⟩
      · left; exact heq
      · right
        refine ⟨j + 1, by simpa using Nat.succ_lt_succ hj, ?_, ?_⟩
        · rw [h1]; omega
        · rw [h2]; simp [List.getD_cons_succ]

/-- `argmax` returns a valid index, and that index attains the maximum. -/
theorem argmax_is_max (row : List ℚ) (hrow : row ≠ []) :
    argmax row < row.length ∧
      ∀ i, i < row.length → row.getD i 0 ≤ row.getD (argmax row) 0 := by
  obtain ⟨x, xs, rfl⟩ := List.exists_cons_of_ne_nil hrow
  have hval : (x :: xs).getD (argmax (x :: xs)) 0 = (argmaxP xs 1 (0, x)).2 ∧
      argmax (x :: xs) < (x :: xs).length := by
    rcases argmaxP_index xs 1 (0, x) with heq | ⟨j, hj, h1, h2⟩
    · constructor
      · simp [argmax, heq]
      · simp [argmax, heq]
    · constructor
      · simp only [argmax, h1, h2]
        have : 1 + j = j + 1 := by omega
        rw [this, List.getD_cons_succ]
      · simp only [argmax, h1, List.length_cons]
        omega
  refine ⟨hval.2, ?_⟩
  intro i hi
  rw [hval.1]
  cases i with
  | zero =>
    simpa using argmaxP_acc_le xs 1 (0, x)
  | succ k =>
    have hk : k < xs.length := by simpa using hi
    have hmem : xs.getD k 0 ∈ xs := by
      rw [List.getD_eq_getElem xs 0 hk]
      exact List.getElem_mem hk
    simpa using argmaxP_mem_le xs 1 (0, x) (xs.getD k 0) hmem

end EvalCh

namespace EvalCh

/-! ### Case analysis of `mainModel` -/

theorem mainModel_if1 (args : Args) (ml_type : String)
    (h : ¬ (ml_type ≠ "imgseg" ∨ args.batch_size = 1)) :
    mainModel args ml_type = (tr0 args, some AssertId.segBatchSize) := by
  unfold mainModel
  rw [if_pos h]

theorem mainModel_if2 (args : Args) (ml_type : String)
    (hA : ml_type ≠ "imgseg" ∨ args.batch_size = 1)
    (h : ¬ (ml_type ≠ "imgseg" ∨ args.disable_cudnn_autotune = true)) :
    mainModel args ml_type = (tr0 args, some AssertId.segAutotune) := by
  unfold mainModel
  rw [if_neg (not_not_intro hA), if_pos h]

theorem mainModel_ok (args : Args) (ml_type : String)
    (hA : ml_type ≠ "imgseg" ∨ args.batch_size = 1)
    (hB : ml_type ≠ "imgseg" ∨ args.disable_cudnn_autotune = true) :
    mainModel args ml_type =
      if args.use_pretrained = true ∨ pyStrip args.resume ≠ "" then
        (trData args ++ [Event.testCall true true], none)
      else
        (trData args, some AssertId.pretrainedOrResume) := by
  unfold mainModel
  rw [if_neg (not_not_intro hA), if_neg (not_not_intro hB)]
  by_cases hC : args.use_pretrained = true ∨ pyStrip args.resume ≠ ""
  · rw [if_neg (not_not_intro hC), if_pos hC]
  · rw [if_pos hC, if_neg hC]

/-! ### Membership in the traces -/

theorem testCall_not_mem_tr0 (args : Args) (c e : Bool) :
    Event.testCall c e ∉ tr0 args := by
  unfold tr0
  by_cases h : args.disable_cudnn_autotune = true <;> simp [h]

theorem testCall_not_mem_trData (args : Args) (c e : Bool) :
    Event.testCall c e ∉ trData args := by
  unfold trData tr0
  by_cases h1 : args.disable_cudnn_autotune = true <;>
    by_cases h2 : args.data_subset = "val" <;> simp [h1, h2]

theorem prepareModel_not_mem_tr0 (args : Args) (m : String) (u : Bool)
    (p : String) : Event.prepareModel m u p ∉ tr0 args := by
  unfold tr0
  by_cases h : args.disable_cudnn_autotune = true <;> simp [h]

theorem getVal_mem_trData_iff (args : Args) (b : Int) :
    Event.getValDataSource b ∈ trData args ↔
      args.data_subset = "val" ∧ b = args.batch_size := by
  unfold trData tr0
  by_cases h1 : args.disable_cudnn_autotune = true <;>
    by_cases h2 : args.data_subset = "val" <;> simp [h1, h2]

theorem getTest_mem_trData_iff (args : Args) (b : Int) :
    Event.getTestDataSource b ∈ trData args ↔
      args.data_subset ≠ "val" ∧ b = args.batch_size := by
  unfold trData tr0
  by_cases h1 : args.disable_cudnn_autotune = true <;>
    by_cases h2 : args.data_subset = "val" <;> simp [h1, h2]

theorem setEnv_mem_tr0_iff (args : Args) (n v : String) :
    Event.setEnv n v ∈ tr0 args ↔
      args.disable_cudnn_autotune = true ∧
        n = "MXNET_CUDNN_AUTOTUNE_DEFAULT" ∧ v = "0" := by
  unfold tr0
  by_cases h : args.disable_cudnn_autotune = true <;> simp [h]

theorem setEnv_mem_trData_iff (args : Args) (n v : String) :
    Event.setEnv n v ∈ trData args ↔ Event.setEnv n v ∈ tr0 args := by
  unfold trData
  by_cases h2 : args.data_subset = "val" <;> simp [h2]

/-- Where a `setEnv` event can occur in a run of `main`, whatever branch is
taken: exactly when the disable-cudnn-autotune flag is set, and then only for
the variable `MXNET_CUDNN_AUTOTUNE_DEFAULT` with value `"0"`. -/
theorem setEnv_mem_mainModel_iff (args : Args) (ml_type : String)
    (n v : String) :
    Event.setEnv n v ∈ (mainModel args ml_type).1 ↔
      args.disable_cudnn_autotune = true ∧
        n = "MXNET_CUDNN_AUTOTUNE_DEFAULT" ∧ v = "0" := by
  by_cases hA : ml_type ≠ "imgseg" ∨ args.batch_size = 1
  · by_cases hB : ml_type ≠ "imgseg" ∨ args.disable_cudnn_autotune = true
    · rw [mainModel_ok args ml_type hA hB]
      by_cases hC : args.use_pretrained = true ∨ pyStrip args.resume ≠ ""
      · rw [if_pos hC]
        simp only [List.mem_append]
        rw [setEnv_mem_trData_iff, setEnv_mem_tr0_iff]
        simp
      · rw [if_neg hC]
        rw [show ((trData args, some AssertId.pretrainedOrResume).1) = trData args from rfl]
        rw [setEnv_mem_trData_iff, setEnv_mem_tr0_iff]
    · rw [mainModel_if2 args ml_type hA hB]
      exact setEnv_mem_tr0_iff args n v
  · rw [mainModel_if1 args ml_type hA]
    exact setEnv_mem_tr0_iff args n v

end EvalCh

namespace EvalCh

/-- In a run supplying neither the pretrained flag nor a non-empty stripped
resume path, some assertion fires and `test()` is never called. -/
theorem neither_given_aux (args : Args) (ml_type : String)
    (h1 : args.use_pretrained = false) (h2 : pyStrip args.resume = "") :
    (mainModel args ml_type).2 ≠ none ∧
      ∀ c e : Bool, Event.testCall c e ∉ (mainModel args ml_type).1 := by
  by_cases hA : ml_type ≠ "imgseg" ∨ args.batch_size = 1
  · by_cases hB : ml_type ≠ "imgseg" ∨ args.disable_cudnn_autotune = true
    · have hC : ¬ (args.use_pretrained = true ∨ pyStrip args.resume ≠ "") := by
        simp [h1, h2]
      rw [mainModel_ok args ml_type hA hB, if_neg hC]
      exact ⟨by simp, fun c e => testCall_not_mem_trData args c e⟩
    · rw [mainModel_if2 args ml_type hA hB]
      exact ⟨by simp, fun c e => testCall_not_mem_tr0 args c e⟩
  · rw [mainModel_if1 args ml_type hA]
    exact ⟨by simp, fun c e => testCall_not_mem_tr0 args c e⟩

/-! ### Claim theorems -/

/-- C1 (counterexample): the assertion at line 222 does not reject the
configuration in which both the use-pretrained flag and a non-empty resume
path are given: `main` passes every assertion and reaches `test()`, so the
claim that exactly one of the two must be supplied is false. -/
theorem C1_both_accepted :
    (mainModel argsBoth "imgcls").2 = none ∧
      Event.testCall true true ∈ (mainModel argsBoth "imgcls").1 := by
  constructor
  · rfl
  · decide

/-- C1 (amended): at least one of the use-pretrained flag or a non-empty
(stripped) resume path must be supplied: when neither is given an assertion
fires and `test()` is never called, and when at least one is given the
pretrained-or-resume assertion does not fire. -/
theorem C1_at_least_one (args : Args) (ml_type : String) :
    (args.use_pretrained = false → pyStrip args.resume = "" →
      (mainModel args ml_type).2 ≠ none ∧
        ∀ c e : Bool, Event.testCall c e ∉ (mainModel args ml_type).1)
    ∧ (args.use_pretrained = true ∨ pyStrip args.resume ≠ "" →
      (mainModel args ml_type).2 ≠ some AssertId.pretrainedOrResume) := by
  constructor
  · exact fun h1 h2 => neither_given_aux args ml_type h1 h2
  · intro h
    by_cases hA : ml_type ≠ "imgseg" ∨ args.batch_size = 1
    · by_cases hB : ml_type ≠ "imgseg" ∨ args.disable_cudnn_autotune = true
      · rw [mainModel_ok args ml_type hA hB, if_pos h]
        simp
      · rw [mainModel_if2 args ml_type hA hB]
        simp
    · rw [mainModel_if1 args ml_type hA]
      simp

/-- C1 (witness): the neither-given configuration is rejected before
`test()` is called. -/
theorem C1_at_least_one_witness :
    (mainModel argsNeither "imgcls").2 ≠ none ∧
      ∀ c e : Bool, Event.testCall c e ∉ (mainModel argsNeither "imgcls").1 :=
  (C1_at_least_one argsNeither "imgcls").1 rfl (by decide)

/-- C2: for a segmentation dataset (`ml_type = "imgseg"`), if the batch size
is not 1 or the disable-cudnn-autotune flag is not set, one of the two
segmentation assertions fires and `prepare_model` is never called; for any
other `ml_type` neither of these two assertions ever fires. -/
theorem C2_seg_asserts (args : Args) (ml_type : String) :
    (ml_type = "imgseg" →
      (args.batch_size ≠ 1 ∨ args.disable_cudnn_autotune = false) →
      ((mainModel args ml_type).2 = some AssertId.segBatchSize ∨
        (mainModel args ml_type).2 = some AssertId.segAutotune) ∧
        ∀ m u p, Event.prepareModel m u p ∉ (mainModel args ml_type).1)
    ∧ (ml_type ≠ "imgseg" →
      (mainModel args ml_type).2 ≠ some AssertId.segBatchSize ∧
        (mainModel args ml_type).2 ≠ some AssertId.segAutotune) := by
  constructor
  · intro hseg hbad
    by_cases hA : ml_type ≠ "imgseg" ∨ args.batch_size = 1
    · have hbs : args.batch_size = 1 := hA.resolve_left (by simp [hseg])
      have hauto : args.disable_cudnn_autotune = false := by
        rcases hbad with hb | hb
        · exact absurd hbs hb
        · exact hb
      have hB : ¬ (ml_type ≠ "imgseg" ∨ args.disable_cudnn_autotune = true) := by
        simp [hseg, hauto]
      rw [mainModel_if2 args ml_type hA hB]
      exact ⟨Or.inr rfl, fun m u p => prepareModel_not_mem_tr0 args m u p⟩
    · rw [mainModel_if1 args ml_type hA]
      exact ⟨Or.inl rfl, fun m u p => prepareModel_not_mem_tr0 args m u p⟩
  · intro hns
    have hA : ml_type ≠ "imgseg" ∨ args.batch_size = 1 := Or.inl hns
    have hB : ml_type ≠ "imgseg" ∨ args.disable_cudnn_autotune = true :=
      Or.inl hns
    rw [mainModel_ok args ml_type hA hB]
    by_cases hC : args.use_pretrained = true ∨ pyStrip args.resume ≠ ""
    · rw [if_pos hC]
      simp
    · rw [if_neg hC]
      simp

/-- C2 (witness): a segmentation run with batch size 512 fails a
segmentation assertion and never reaches `prepare_model`. -/
theorem C2_seg_asserts_witness :
    ((mainModel argsSeg "imgseg").2 = some AssertId.segBatchSize ∨
      (mainModel argsSeg "imgseg").2 = some AssertId.segAutotune) ∧
      ∀ m u p, Event.prepareModel m u p ∉ (mainModel argsSeg "imgseg").1 :=
  (C2_seg_asserts argsSeg "imgseg").1 rfl (by decide)

/-- C5: when the use-pretrained flag is not set and the resume string strips
to empty, an assertion fires in `main` and `test()` is never invoked. -/
theorem C5_neither_given (args : Args) (ml_type : String)
    (h1 : args.use_pretrained = false) (h2 : pyStrip args.resume = "") :
    (mainModel args ml_type).2 ≠ none ∧
      ∀ c e : Bool, Event.testCall c e ∉ (mainModel args ml_type).1 :=
  neither_given_aux args ml_type h1 h2

/-- C5 (witness): the whitespace-resume, no-pretrained configuration is
rejected before `test()`. -/
theorem C5_neither_given_witness :
    (mainModel argsNeither "ImageNet1K").2 ≠ none ∧
      ∀ c e : Bool,
        Event.testCall c e ∉ (mainModel argsNeither "ImageNet1K").1 :=
  C5_neither_given argsNeither "ImageNet1K" rfl (by decide)

end EvalCh

namespace EvalCh

/-- C6: in any run of `main` that passes the two segmentation assertions,
the validation data-source provider is called iff `data_subset = "val"` and
the test data-source provider is called iff `data_subset ≠ "val"`; moreover a
data-source call always carries the configured batch size and matches the
subset this way. -/
theorem C6_data_subset (args : Args) (ml_type : String)
    (h : (mainModel args ml_type).2 ≠ some AssertId.segBatchSize ∧
         (mainModel args ml_type).2 ≠ some AssertId.segAutotune) :
    (Event.getValDataSource args.batch_size ∈ (mainModel args ml_type).1 ↔
      args.data_subset = "val")
    ∧ (Event.getTestDataSource args.batch_size ∈ (mainModel args ml_type).1 ↔
      args.data_subset ≠ "val")
    ∧ (∀ b, Event.getValDataSource b ∈ (mainModel args ml_type).1 →
      args.data_subset = "val" ∧ b = args.batch_size)
    ∧ (∀ b, Event.getTestDataSource b ∈ (mainModel args ml_type).1 →
      args.data_subset ≠ "val" ∧ b = args.batch_size) := by
  by_cases hA : ml_type ≠ "imgseg" ∨ args.batch_size = 1
  · by_cases hB : ml_type ≠ "imgseg" ∨ args.disable_cudnn_autotune = true
    · rw [mainModel_ok args ml_type hA hB]
      by_cases hC : args.use_pretrained = true ∨ pyStrip args.resume ≠ ""
      · rw [if_pos hC]
        simp only [List.mem_append, List.mem_singleton]
        constructor
        · simp only [getVal_mem_trData_iff]
          simp
        constructor
        · simp only [getTest_mem_trData_iff]
          simp
        constructor
        · intro b hb
          rcases hb with hb | hb
          · exact (getVal_mem_trData_iff args b).mp hb
          · exact absurd hb (by simp)
        · intro b hb
          rcases hb with hb | hb
          · exact (getTest_mem_trData_iff args b).mp hb
          · exact absurd hb (by simp)
      · rw [if_neg hC]
        refine ⟨?_, ?_, ?_, ?_⟩
        · rw [show ((trData args, some AssertId.pretrainedOrResume).1) = trData args from rfl,
            getVal_mem_trData_iff]
          simp
        · rw [show ((trData args, some AssertId.pretrainedOrResume).1) = trData args from rfl,
            getTest_mem_trData_iff]
          simp
        · intro b hb
          exact (getVal_mem_trData_iff args b).mp hb
        · intro b hb
          exact (getTest_mem_trData_iff args b).mp hb
    · exfalso
      rw [mainModel_if2 args ml_type hA hB] at h
      exact h.2 rfl
  · exfalso
    rw [mainModel_if1 args ml_type hA] at h
    exact h.1 rfl

/-- C6 (witness): a well-formed run with `data_subset = "val"` calls the
validation provider and not the test provider. -/
theorem C6_data_subset_witness :
    (Event.getValDataSource argsOk.batch_size ∈ (mainModel argsOk "imgcls").1 ↔
      argsOk.data_subset = "val")
    ∧ (Event.getTestDataSource argsOk.batch_size ∈ (mainModel argsOk "imgcls").1 ↔
      argsOk.data_subset ≠ "val")
    ∧ (∀ b, Event.getValDataSource b ∈ (mainModel argsOk "imgcls").1 →
      argsOk.data_subset = "val" ∧ b = argsOk.batch_size)
    ∧ (∀ b, Event.getTestDataSource b ∈ (mainModel argsOk "imgcls").1 →
      argsOk.data_subset ≠ "val" ∧ b = argsOk.batch_size) :=
  C6_data_subset argsOk "imgcls" (by constructor <;> decide)

/-- C7: `MXNET_CUDNN_AUTOTUNE_DEFAULT` is set to `"0"` iff the
disable-cudnn-autotune flag is given; without the flag the environment map is
unchanged, and no other variable is ever written. -/
theorem C7_autotune_env (args : Args) (ml_type : String)
    (env : String → Option String) :
    autotuneStep true env "MXNET_CUDNN_AUTOTUNE_DEFAULT" = some "0"
    ∧ autotuneStep false env = env
    ∧ (Event.setEnv "MXNET_CUDNN_AUTOTUNE_DEFAULT" "0" ∈
        (mainModel args ml_type).1 ↔ args.disable_cudnn_autotune = true)
    ∧ (∀ n v, Event.setEnv n v ∈ (mainModel args ml_type).1 →
        n = "MXNET_CUDNN_AUTOTUNE_DEFAULT" ∧ v = "0") := by
  refine ⟨by simp [autotuneStep, setVar], rfl, ?_, ?_⟩
  · rw [setEnv_mem_mainModel_iff]
    simp
  · intro n v hm
    exact ((setEnv_mem_mainModel_iff args ml_type n v).mp hm).2

/-- C7 (witness): the environment effect at a concrete configuration. -/
theorem C7_autotune_env_witness :
    autotuneStep true (fun _ => none) "MXNET_CUDNN_AUTOTUNE_DEFAULT" = some "0"
    ∧ autotuneStep false (fun _ => none) = (fun _ : String => none)
    ∧ (Event.setEnv "MXNET_CUDNN_AUTOTUNE_DEFAULT" "0" ∈
        (mainModel argsOk "imgcls").1 ↔ argsOk.disable_cudnn_autotune = true)
    ∧ (∀ n v, Event.setEnv n v ∈ (mainModel argsOk "imgcls").1 →
        n = "MXNET_CUDNN_AUTOTUNE_DEFAULT" ∧ v = "0") :=
  C7_autotune_env argsOk "imgcls" (fun _ => none)

/-- C9: `main` always invokes `test` with `calc_weight_count = True` and
`extended_log = True`: in a completed run the call appears with both flags
true, any `test` call in any run has both flags true, and with
`extended_log = true` the plain log format is never emitted. -/
theorem C9_always_extended (args : Args) (ml_type : String)
    (y : List (List ℚ)) (t : List ℕ) (w : ℕ) (el : ℚ) (cw : Bool) :
    ((mainModel args ml_type).2 = none →
      Event.testCall true true ∈ (mainModel args ml_type).1)
    ∧ (∀ c e : Bool, Event.testCall c e ∈ (mainModel args ml_type).1 →
      c = true ∧ e = true)
    ∧ (∀ a b : ℚ, LogMsg.errPlain a b ∉ test y t w el cw true) := by
  refine ⟨?_, ?_, ?_⟩
  · intro hnone
    by_cases hA : ml_type ≠ "imgseg" ∨ args.batch_size = 1
    · by_cases hB : ml_type ≠ "imgseg" ∨ args.disable_cudnn_autotune = true
      · rw [mainModel_ok args ml_type hA hB] at hnone ⊢
        by_cases hC : args.use_pretrained = true ∨ pyStrip args.resume ≠ ""
        · rw [if_pos hC]
          simp
        · rw [if_neg hC] at hnone
          exact absurd hnone (by simp)
      · rw [mainModel_if2 args ml_type hA hB] at hnone
        exact absurd hnone (by simp)
    · rw [mainModel_if1 args ml_type hA] at hnone
      exact absurd hnone (by simp)
  · intro c e hm
    by_cases hA : ml_type ≠ "imgseg" ∨ args.batch_size = 1
    · by_cases hB : ml_type ≠ "imgseg" ∨ args.disable_cudnn_autotune = true
      · rw [mainModel_ok args ml_type hA hB] at hm
        by_cases hC : args.use_pretrained = true ∨ pyStrip args.resume ≠ ""
        · rw [if_pos hC] at hm
          rcases List.mem_append.mp hm with hm | hm
          · exact absurd hm (testCall_not_mem_trData args c e)
          · simpa using hm
        · rw [if_neg hC] at hm
          exact absurd hm (testCall_not_mem_trData args c e)
      · rw [mainModel_if2 args ml_type hA hB] at hm
        exact absurd hm (testCall_not_mem_tr0 args c e)
    · rw [mainModel_if1 args ml_type hA] at hm
      exact absurd hm (testCall_not_mem_tr0 args c e)
  · intro a b
    by_cases hcw : cw = true <;> simp [test, hcw]

/-- C9 (witness): the completed concrete run calls `test` with both flags
true and the extended format never degrades to the plain one. -/
theorem C9_always_extended_witness :
    ((mainModel argsOk "imgcls").2 = none →
      Event.testCall true true ∈ (mainModel argsOk "imgcls").1)
    ∧ (∀ c e : Bool, Event.testCall c e ∈ (mainModel argsOk "imgcls").1 →
      c = true ∧ e = true)
    ∧ (∀ a b : ℚ, LogMsg.errPlain a b ∉ test yEx tEx 5 2 true true) :=
  C9_always_extended argsOk "imgcls" yEx tEx 5 2 true

/-- C10: a resume value consisting only of whitespace behaves exactly like
the empty string: it strips to empty, and the whole run of `main` (the
assertion outcome and every external call, including the checkpoint path
given to `prepare_model`) is identical. -/
theorem C10_whitespace_resume (args : Args) (ml_type : String) (r : String)
    (h : ∀ c ∈ r.data, isPySpace c = true) :
    pyStrip r = "" ∧
      mainModel (setResume args r) ml_type =
        mainModel (setResume args "") ml_type := by
  have hstrip : pyStrip r = "" := by
    unfold pyStrip
    have hd : r.data.dropWhile isPySpace = [] :=
      List.dropWhile_eq_nil_iff.mpr h
    rw [hd]
    rfl
  have hstrip0 : pyStrip "" = "" := rfl
  refine ⟨hstrip, ?_⟩
  unfold mainModel trData tr0 setResume
  simp only [hstrip, hstrip0]

/-- C10 (witness): a tab-and-spaces resume string gives the same run as the
empty one. -/
theorem C10_whitespace_resume_witness :
    pyStrip " \t " = "" ∧
      mainModel (setResume argsOk " \t ") "imgcls" =
        mainModel (setResume argsOk "") "imgcls" :=
  C10_whitespace_resume argsOk "imgcls" " \t " (by decide)

end EvalCh

namespace EvalCh

/-- C3: the top-1 error is `1 - accuracy`, where accuracy is the fraction of
samples whose first-maximal (`argmax`) predicted class equals the true label;
`argmax` indeed returns a valid index attaining the row maximum, and the
error value is what `test` logs. -/
theorem C3_top1_error (y : List (List ℚ)) (t : List ℕ) (w : ℕ) (el : ℚ)
    (cw : Bool) (row : List ℚ) (hrow : row ≠ []) (i : ℕ)
    (hi : i < row.length) :
    err_top1_val y t =
      1 - (((y.zip t).countP fun p => decide (argmax p.1 = p.2)) : ℚ) /
        (y.length : ℚ)
    ∧ argmax row < row.length
    ∧ row.getD i 0 ≤ row.getD (argmax row) 0
    ∧ LogMsg.errExtended (fmt4 (err_top1_val y t)) (err_top1_val y t)
        (fmt4 (err_top5_val y t)) (err_top5_val y t) ∈ test y t w el cw true := by
  refine ⟨rfl, (argmax_is_max row hrow).1, (argmax_is_max row hrow).2 i hi, ?_⟩
  by_cases hcw : cw = true <;> simp [test, hcw]

/-- C3 (witness): the spec's end-to-end scenario, with the class-2 row. -/
theorem C3_top1_error_witness :
    err_top1_val yEx tEx =
      1 - (((yEx.zip tEx).countP fun p => decide (argmax p.1 = p.2)) : ℚ) /
        (yEx.length : ℚ)
    ∧ argmax rowTop1 < rowTop1.length
    ∧ rowTop1.getD 2 0 ≤ rowTop1.getD (argmax rowTop1) 0
    ∧ LogMsg.errExtended (fmt4 (err_top1_val yEx tEx)) (err_top1_val yEx tEx)
        (fmt4 (err_top5_val yEx tEx)) (err_top5_val yEx tEx)
        ∈ test yEx tEx 5 2 true true :=
  C3_top1_error yEx tEx 5 2 true rowTop1 (by decide) 2 (by decide)

/-- C4: the top-5 error is `1 - top_k_accuracy(y, t, 5)` over the same
concatenated arrays, where a sample counts as correct iff its true label is
among the 5 highest-scoring classes (fewer than 5 classes score strictly
above it), and the error value is what `test` logs. -/
theorem C4_top5_error (y : List (List ℚ)) (t : List ℕ) (w : ℕ) (el : ℚ)
    (cw : Bool) (row : List ℚ) (lab : ℕ) :
    err_top5_val y t =
      1 - (((y.zip t).countP fun p => inTopK 5 p.1 p.2) : ℚ) / (y.length : ℚ)
    ∧ (inTopK 5 row lab = true ↔
        lab < row.length ∧
          (row.filter fun s => decide (row.getD lab 0 < s)).length < 5)
    ∧ LogMsg.errExtended (fmt4 (err_top1_val y t)) (err_top1_val y t)
        (fmt4 (err_top5_val y t)) (err_top5_val y t) ∈ test y t w el cw true := by
  refine ⟨rfl, ?_, ?_⟩
  · simp [inTopK, List.countP_eq_length_filter]
  · by_cases hcw : cw = true <;> simp [test, hcw]

/-- C8: `test` logs the two error values rounded to 4 decimal places, in the
extended format (which repeats the full-precision values) exactly when
`extended_log` is set and in the plain format otherwise, and its last message
is the elapsed time; rounding to 4 decimals means a multiple of `1/10000`
within `1/20000` of the value. -/
theorem C8_log_output (y : List (List ℚ)) (t : List ℕ) (w : ℕ) (el : ℚ)
    (cw : Bool) (x : ℚ) :
    (LogMsg.errExtended (fmt4 (err_top1_val y t)) (err_top1_val y t)
        (fmt4 (err_top5_val y t)) (err_top5_val y t) ∈ test y t w el cw true
      ∧ ∀ a b : ℚ, LogMsg.errPlain a b ∉ test y t w el cw true)
    ∧ (LogMsg.errPlain (fmt4 (err_top1_val y t)) (fmt4 (err_top5_val y t))
        ∈ test y t w el cw false
      ∧ ∀ a b c d : ℚ, LogMsg.errExtended a b c d ∉ test y t w el cw false)
    ∧ (∀ xl : Bool,
        (test y t w el cw xl).getLast? = some (LogMsg.timeCost (fmt4 el)))
    ∧ (∃ z : ℤ, fmt4 x = (z : ℚ) / 10000)
    ∧ |fmt4 x - x| ≤ 1 / 20000 := by
  refine ⟨⟨?_, ?_⟩, ⟨?_, ?_⟩, ?_, ⟨round (x * 10000), rfl⟩, ?_⟩
  · by_cases hcw : cw = true <;> simp [test, hcw]
  · intro a b
    by_cases hcw : cw = true <;> simp [test, hcw]
  · by_cases hcw : cw = true <;> simp [test, hcw]
  · intro a b c d
    by_cases hcw : cw = true <;> simp [test, hcw]
  · intro xl
    unfold test
    exact List.getLast?_concat _
  · have h1 : fmt4 x - x =
        (((round (x * 10000) : ℤ) : ℚ) - x * 10000) / 10000 := by
      unfold fmt4
      ring
    rw [h1, abs_div, abs_sub_comm,
      show |(10000 : ℚ)| = 10000 from by norm_num,
      show (1 : ℚ) / 20000 = (1 / 2) / 10000 from by norm_num]
    exact (div_le_div_iff_of_pos_right (by norm_num)).mpr
      (abs_sub_round (x * 10000))

end EvalCh
